import Mathlib

/-!
Shallow embedding of `src/backend/api/api.py`: a FastAPI application with a
single route `GET /api/get-list-items` returning the literal list
`["apples", "bananas", "cherries"]`, wrapped in Starlette's `CORSMiddleware`
configured with `allow_credentials=True`, `allow_origins=["*"]`,
`allow_methods=["*"]`, `allow_headers=["*"]`.

The framework behaviour (FastAPI routing on top of Starlette, the CORS
middleware, JSON response rendering, and the ASGI server's handling of HEAD
responses) is part of the program's observable semantics and is embedded here
as executable Lean functions, specialised where noted to the configuration
that `api.py` actually installs.

Header names are modelled lowercased, matching HTTP's case-insensitive
header comparison.
-/

namespace Api

/-- An HTTP request as seen by the application: method, path, headers
(lower-cased names) and the raw query string. The handler reads none of the
headers or the query string. -/
structure Request where
  method : String
  path : String
  headers : List (String × String)
  query : String
deriving DecidableEq, Repr

/-- An HTTP response: status code, headers and body bytes (as a string). -/
structure Response where
  status : Nat
  headers : List (String × String)
  body : String
deriving DecidableEq, Repr

/-- First header with the given (lower-case) name, if any. -/
def findHeader (hs : List (String × String)) (n : String) : Option String :=
  (hs.find? fun p => p.1 == n).map Prod.snd

def Request.getHeader (r : Request) (n : String) : Option String :=
  findHeader r.headers n

def Response.getHeader (r : Response) (n : String) : Option String :=
  findHeader r.headers n

/-! ### The endpoint (`getListItems` in api.py) -/

/-- The literal returned by the route handler in api.py:
`return ["apples", "bananas", "cherries"]`. -/
def getListItems : List String :=
  ["apples", "bananas", "cherries"]

/-- The handler's body, run in an exception monad: it is a single `return` of
a list literal, so it never reaches the error case. FastAPI would turn a
raised exception into a 500 response (see `runEndpoint`). -/
def getListItemsEndpoint : Unit → Except String (List String) :=
  fun _ => Except.ok getListItems

/-! ### JSON rendering (FastAPI's JSONResponse: `json.dumps` with
`ensure_ascii=False` and separators `(",", ":")`) -/

def hexDigit (n : Nat) : Char :=
  if n < 10 then Char.ofNat (48 + n) else Char.ofNat (87 + n)

/-- Escape one character the way `json.dumps(..., ensure_ascii=False)` does. -/
def jsonEscapeChar (c : Char) : String :=
  if c == '"' then "\\\""
  else if c == '\\' then "\\\\"
  else if c == '\n' then "\\n"
  else if c == '\t' then "\\t"
  else if c == '\r' then "\\r"
  else if c.toNat == 8 then "\\b"
  else if c.toNat == 12 then "\\f"
  else if c.toNat < 32 then
    "\\u00" ++ String.mk [hexDigit (c.toNat / 16), hexDigit (c.toNat % 16)]
  else String.mk [c]

def jsonString (s : String) : String :=
  "\"" ++ String.join (s.data.map jsonEscapeChar) ++ "\""

/-- A JSON array of strings, compact separators, as FastAPI renders it. -/
def jsonRenderStrList (l : List String) : String :=
  "[" ++ String.intercalate "," (l.map jsonString) ++ "]"

/-- FastAPI's JSONResponse for a `list[str]` return value. -/
def jsonResponse (l : List String) : Response :=
  { status := 200
    headers := [("content-type", "application/json")]
    body := jsonRenderStrList l }

/-- Starlette's reaction to an exception escaping the endpoint. -/
def serverErrorResponse : Response :=
  { status := 500
    headers := [("content-type", "text/plain; charset=utf-8")]
    body := "Internal Server Error" }

/-- FastAPI's execution of an endpoint: serialise the returned value on
success, answer 500 if the endpoint raised. -/
def runEndpoint (f : Unit → Except String (List String)) : Response :=
  match f () with
  | Except.ok v => jsonResponse v
  | Except.error _ => serverErrorResponse

/-! ### Routing (Starlette router with its default `redirect_slashes=True`) -/

/-- The one registered path, from `@app.get("/api/get-list-items")`. -/
def routePath : String := "/api/get-list-items"

/-- `app.get` registers `methods=["GET"]`, and Starlette's `Route` adds
`HEAD` whenever `GET` is present. -/
def routeMethods : List String := ["GET", "HEAD"]

/-- Starlette's default 404 response for an unmatched path. -/
def notFoundResponse : Response :=
  { status := 404
    headers := [("content-type", "text/plain; charset=utf-8")]
    body := "Not Found" }

/-- Starlette's 405 response when the path matches but the method does not.
(The real `Allow` header joins a Python set, so its order is unspecified;
no claim depends on it.) -/
def methodNotAllowedResponse : Response :=
  { status := 405
    headers := [("content-type", "text/plain; charset=utf-8"), ("allow", "GET, HEAD")]
    body := "Method Not Allowed" }

/-- Starlette's `RedirectResponse` for the slash redirect; it uses status
307 and a `location` header. The model records the path portion of the
redirect URL. -/
def redirectResponse (target : String) : Response :=
  { status := 307
    headers := [("location", target)]
    body := "" }

/-- Python's `path.endswith("/")`. -/
def endsWithSlash (s : String) : Bool :=
  match s.data.getLast? with
  | some c => c == '/'
  | none => false

/-- Python's `path.rstrip("/")`: remove every trailing slash. -/
def rstripSlashes (s : String) : String :=
  String.mk ((s.data.reverse.dropWhile fun c => c == '/').reverse)

/-- The alternative path tried by the slash redirect: strip the trailing
slashes, or append one. -/
def slashAlt (p : String) : String :=
  if endsWithSlash p then rstripSlashes p else p ++ "/"

/-- Starlette's `redirect_slashes` retry: for a non-root unmatched path,
toggle the trailing slash and redirect if the toggled path matches the
route table. -/
def slashRedirectTarget (p : String) : Option String :=
  if p = "/" then none
  else if slashAlt p = routePath then some (slashAlt p) else none

/-- The Starlette router of the app: one route, default 404/405 handling,
default slash redirect. -/
def routerApp (r : Request) : Response :=
  if r.path = routePath then
    if r.method ∈ routeMethods then runEndpoint getListItemsEndpoint
    else methodNotAllowedResponse
  else
    match slashRedirectTarget r.path with
    | some target => redirectResponse target
    | none => notFoundResponse

/-! ### CORS middleware (Starlette `CORSMiddleware` as configured in api.py) -/

/-- The keyword arguments of `app.add_middleware(CORSMiddleware, ...)`. -/
structure CORSConfig where
  allowOrigins : List String
  allowMethods : List String
  allowHeaders : List String
  allowCredentials : Bool
deriving DecidableEq, Repr

def corsConfig : CORSConfig :=
  { allowOrigins := ["*"]
    allowMethods := ["*"]
    allowHeaders := ["*"]
    allowCredentials := true }

/-- Starlette's `ALL_METHODS`, substituted when `allow_methods=["*"]`. -/
def ALL_METHODS : List String :=
  ["DELETE", "GET", "HEAD", "OPTIONS", "PATCH", "POST", "PUT"]

def allowAllOrigins : Prop := "*" ∈ corsConfig.allowOrigins

instance : Decidable allowAllOrigins := by unfold allowAllOrigins; infer_instance

def allowAllHeaders : Prop := "*" ∈ corsConfig.allowHeaders

instance : Decidable allowAllHeaders := by unfold allowAllHeaders; infer_instance

def resolvedAllowMethods : List String :=
  if "*" ∈ corsConfig.allowMethods then ALL_METHODS else corsConfig.allowMethods

def isAllowedOrigin (o : String) : Prop :=
  allowAllOrigins ∨ o ∈ corsConfig.allowOrigins

instance (o : String) : Decidable (isAllowedOrigin o) := by
  unfold isAllowedOrigin; infer_instance

/-- Headers the middleware adds to every non-preflight response: with
`allow_origins=["*"]` it sends a literal `*`, and `allow_credentials=True`
adds the credentials header. -/
def simpleHeaders : List (String × String) :=
  [("access-control-allow-origin", "*"),
   ("access-control-allow-credentials", "true")]

/-- Starlette's `preflight_explicit_allow_origin = not allow_all_origins or
allow_credentials`: when credentials are allowed, a preflight reply must
name the requesting origin explicitly instead of sending a wildcard. Under
this configuration (`allow_credentials=True`) it holds. -/
def preflightExplicitAllowOrigin : Prop :=
  ¬ allowAllOrigins ∨ corsConfig.allowCredentials = true

instance : Decidable preflightExplicitAllowOrigin := by
  unfold preflightExplicitAllowOrigin; infer_instance

/-- The static part of a preflight reply's headers: when the explicit-origin
rule applies (it does here), a `Vary: Origin` entry and no static
allow-origin entry (the origin is echoed per request, see
`preflightRespHeaders`); otherwise a literal `*`. Then the expanded method
list, the default `max_age=600`, and — credentials being allowed — the
credentials header. With `allow_headers=["*"]` no static allow-headers
entry is sent; the requested headers are echoed instead. -/
def preflightHeaders : List (String × String) :=
  (if preflightExplicitAllowOrigin then [("vary", "Origin")]
   else [("access-control-allow-origin", "*")])
  ++ [("access-control-allow-methods", String.intercalate ", " resolvedAllowMethods),
      ("access-control-max-age", "600")]
  ++ (if corsConfig.allowCredentials = true
      then [("access-control-allow-credentials", "true")] else [])

/-- Python dict-style header update: replace the value in place if the key
is present, append the pair otherwise. -/
def setHeader (hs : List (String × String)) (n v : String) :
    List (String × String) :=
  if (hs.find? fun p => p.1 == n).isSome then
    hs.map fun p => if p.1 == n then (p.1, v) else p
  else hs ++ [(n, v)]

/-- Replace the value of the allow-origin header by the explicit origin
(Starlette's `allow_explicit_origin`). -/
def allowExplicitOrigin (hs : List (String × String)) (o : String) :
    List (String × String) :=
  hs.map fun p =>
    if p.1 = "access-control-allow-origin" then (p.1, o) else p

/-- With `allow_headers=["*"]` the preflight reply echoes the requested
headers back as allowed (no static allow-headers entry is sent). -/
def preflightEchoHeaders (r : Request) : List (String × String) :=
  match r.getHeader "access-control-request-headers" with
  | some h => if allowAllHeaders then [("access-control-allow-headers", h)] else []
  | none => []

/-- The preflight checks: the requesting origin must be allowed (always, as
`allow_origins=["*"]`) and the requested method must be among the expanded
method list. With `allow_headers=["*"]` the requested-headers check cannot
fail and is omitted. -/
def preflightAllowed (r : Request) : Prop :=
  isAllowedOrigin ((r.getHeader "origin").getD "")
  ∧ ((r.getHeader "access-control-request-method").getD "") ∈ resolvedAllowMethods

instance (r : Request) : Decidable (preflightAllowed r) := by
  unfold preflightAllowed; infer_instance

/-- The full headers of a preflight reply (`preflight_response` in
Starlette): the static headers, then — when the requesting origin is
allowed and the explicit-origin rule applies, as is always the case here —
the requesting origin echoed into Access-Control-Allow-Origin. Under this
configuration every preflight reply carries the echoed origin, never a
literal `*`. Finally the requested headers are echoed as allowed
(`allow_headers=["*"]`). -/
def preflightRespHeaders (r : Request) : List (String × String) :=
  (if isAllowedOrigin ((r.getHeader "origin").getD "")
      ∧ preflightExplicitAllowOrigin then
    setHeader preflightHeaders "access-control-allow-origin"
      ((r.getHeader "origin").getD "")
  else preflightHeaders)
  ++ preflightEchoHeaders r

/-- Starlette's preflight reply, specialised to this configuration.
Failure cases dead under this configuration (disallowed origin, rejected
request headers) are omitted: only a disallowed method can fail. Both the
OK and the failure reply carry the same headers. -/
def preflightResponse (r : Request) : Response :=
  if preflightAllowed r then
    { status := 200
      headers := preflightRespHeaders r
      body := "OK" }
  else
    { status := 400
      headers := preflightRespHeaders r
      body := "Disallowed CORS method" }

/-- Starlette's wrapping of a non-preflight response that carried an
`Origin` header: append the simple CORS headers; when the request carries a
cookie (credentialed request against a wildcard origin) the wildcard is
replaced by the explicit origin. -/
def simpleRespHeaders (r : Request) (hs : List (String × String)) :
    List (String × String) :=
  if allowAllOrigins ∧ ((r.getHeader "cookie").isSome = true) then
    allowExplicitOrigin (hs ++ simpleHeaders) ((r.getHeader "origin").getD "")
  else hs ++ simpleHeaders

def simpleResponse (r : Request) (inner : Response) : Response :=
  { inner with headers := simpleRespHeaders r inner.headers }

/-- The middleware: requests without an `Origin` header pass through
untouched; an `OPTIONS` request with both `Origin` and
`Access-Control-Request-Method` is answered as a preflight without reaching
the router; any other request with an `Origin` header is routed and its
response decorated with the CORS headers. -/
def corsApp (r : Request) : Response :=
  match r.getHeader "origin" with
  | none => routerApp r
  | some _ =>
    if r.method = "OPTIONS" ∧
        ((r.getHeader "access-control-request-method").isSome = true) then
      preflightResponse r
    else
      simpleResponse r (routerApp r)

/-- The full application as served: the CORS middleware wraps the router app
uniformly (added once with `app.add_middleware`, not per-route), and the
ASGI server suppresses the response body of a HEAD request. -/
def serve (r : Request) : Response :=
  if r.method = "HEAD" then { corsApp r with body := "" } else corsApp r

/-! ### Process state and traces -/

/-- The application's process-wide state: the only datum the spec names is
the response payload, which in api.py exists only as a literal in the
handler. -/
structure ServerState where
  payload : List String
deriving DecidableEq, Repr

def initialState : ServerState := { payload := getListItems }

/-- Handling one request: the handler touches no state, so the state passes
through unchanged and the response depends only on the request. -/
def step (s : ServerState) (r : Request) : ServerState × Response :=
  (s, serve r)

/-- Handling a sequence of requests, threading the state. -/
def processTrace : ServerState → List Request → ServerState × List Response
  | s, [] => (s, [])
  | s, r :: rs =>
    ((processTrace (step s r).1 rs).1, (step s r).2 :: (processTrace (step s r).1 rs).2)

/-! ### Concrete requests used by witnesses and counterexamples -/

/-- A concrete GET request to the route, headers and query empty. -/
def getReq : Request :=
  { method := "GET", path := "/api/get-list-items", headers := [], query := "" }

/-- A concrete GET request to the route path with a trailing slash. -/
def slashReq : Request :=
  { method := "GET", path := "/api/get-list-items/", headers := [], query := "" }

/-- A concrete OPTIONS request to the route without any CORS request headers. -/
def optionsReq : Request :=
  { method := "OPTIONS", path := "/api/get-list-items", headers := [], query := "" }

/-- A concrete GET request to the route carrying an Origin header. -/
def originReq : Request :=
  { method := "GET", path := "/api/get-list-items",
    headers := [("origin", "http://example.com")], query := "" }

/-- A concrete CORS preflight request to the route. -/
def preflightReq : Request :=
  { method := "OPTIONS", path := "/api/get-list-items",
    headers := [("origin", "http://example.com"),
                ("access-control-request-method", "GET"),
                ("access-control-request-headers", "x-custom")], query := "" }

theorem serve_headers (r : Request) : (serve r).headers = (corsApp r).headers := by
  unfold serve; split <;> rfl

theorem serve_getHeader (r : Request) (n : String) :
    (serve r).getHeader n = (corsApp r).getHeader n := by
  unfold Response.getHeader; rw [serve_headers]

theorem serve_body_of_ne_head (r : Request) (h : ¬ r.method = "HEAD") :
    (serve r).body = (corsApp r).body := by
  unfold serve; rw [if_neg h]

theorem findHeader_append_of_none (hs hs' : List (String × String)) (n : String)
    (h : findHeader hs n = none) :
    findHeader (hs ++ hs') n = findHeader hs' n := by
  unfold findHeader at h ⊢
  rw [List.find?_append]
  cases hf : hs.find? fun p => p.1 == n with
  | none => rw [Option.none_or]
  | some w => rw [hf] at h; simp at h

theorem findHeader_append_of_some (hs hs' : List (String × String)) (n v : String)
    (h : findHeader hs n = some v) :
    findHeader (hs ++ hs') n = some v := by
  unfold findHeader at h ⊢
  rw [List.find?_append]
  cases hf : hs.find? fun p => p.1 == n with
  | none => rw [hf] at h; simp at h
  | some w => rw [hf] at h; rw [Option.or_some]; exact h

theorem allowExplicitOrigin_fst (o : String) (p : String × String) :
    (if p.1 = "access-control-allow-origin" then (p.1, o) else p).1 = p.1 := by
  split <;> rfl

theorem allowExplicitOrigin_keyTest (o n : String) :
    ((fun p : String × String => p.1 == n) ∘ fun p =>
      if p.1 = "access-control-allow-origin" then (p.1, o) else p)
    = fun p : String × String => p.1 == n := by
  funext p
  simp only [Function.comp_apply]
  rw [allowExplicitOrigin_fst]

theorem findHeader_allowExplicitOrigin_ne (o n : String) (hs : List (String × String))
    (hn : (n == "access-control-allow-origin") = false) :
    findHeader (allowExplicitOrigin hs o) n = findHeader hs n := by
  unfold findHeader allowExplicitOrigin
  rw [List.find?_map, allowExplicitOrigin_keyTest]
  cases hf : hs.find? (fun p : String × String => p.1 == n) with
  | none => rfl
  | some q =>
    have hq := List.find?_some hf
    have hqa : ¬ q.1 = "access-control-allow-origin" := by
      intro he
      have hqn : q.1 = n := eq_of_beq hq
      rw [he] at hqn
      rw [← hqn] at hn
      simp at hn
    simp only [Option.map_some', Function.comp_apply, if_neg hqa]

theorem findHeader_allowExplicitOrigin_isSome (o n : String) (hs : List (String × String)) :
    (findHeader (allowExplicitOrigin hs o) n).isSome = (findHeader hs n).isSome := by
  unfold findHeader allowExplicitOrigin
  rw [List.find?_map, allowExplicitOrigin_keyTest]
  cases hf : hs.find? (fun p : String × String => p.1 == n) with
  | none => rfl
  | some q => rfl

theorem simpleResponse_status (r : Request) (inner : Response) :
    (simpleResponse r inner).status = inner.status := rfl

theorem simpleResponse_body (r : Request) (inner : Response) :
    (simpleResponse r inner).body = inner.body := rfl

theorem simpleResponse_getHeader_ne (r : Request) (inner : Response) (n v : String)
    (hn : (n == "access-control-allow-origin") = false)
    (h : findHeader inner.headers n = some v) :
    (simpleResponse r inner).getHeader n = some v := by
  unfold simpleResponse Response.getHeader simpleRespHeaders
  split
  · rw [findHeader_allowExplicitOrigin_ne _ _ _ hn]
    exact findHeader_append_of_some _ _ _ _ h
  · exact findHeader_append_of_some _ _ _ _ h

theorem simpleResponse_cors_headers (r : Request) (inner : Response)
    (hacao : findHeader inner.headers "access-control-allow-origin" = none)
    (hacac : findHeader inner.headers "access-control-allow-credentials" = none) :
    ((simpleResponse r inner).getHeader "access-control-allow-origin").isSome = true
    ∧ (simpleResponse r inner).getHeader "access-control-allow-credentials"
        = some "true" := by
  unfold simpleResponse Response.getHeader simpleRespHeaders
  split
  · constructor
    · rw [findHeader_allowExplicitOrigin_isSome,
        findHeader_append_of_none _ _ _ hacao]
      rfl
    · rw [findHeader_allowExplicitOrigin_ne _ _ _ (by rfl),
        findHeader_append_of_none _ _ _ hacac]
      rfl
  · constructor
    · rw [findHeader_append_of_none _ _ _ hacao]
      rfl
    · rw [findHeader_append_of_none _ _ _ hacac]
      rfl

/-- The router never emits a CORS header itself. -/
theorem routerApp_no_cors_headers (r : Request) :
    findHeader (routerApp r).headers "access-control-allow-origin" = none
    ∧ findHeader (routerApp r).headers "access-control-allow-credentials" = none := by
  unfold routerApp
  split
  · split
    · exact ⟨rfl, rfl⟩
    · exact ⟨rfl, rfl⟩
  · cases slashRedirectTarget r.path with
    | some target => exact ⟨rfl, rfl⟩
    | none => exact ⟨rfl, rfl⟩

theorem serve_eq_corsApp_of_ne_head (r : Request) (h : ¬ r.method = "HEAD") :
    serve r = corsApp r := by
  unfold serve
  rw [if_neg h]

theorem corsApp_of_origin_none (r : Request) (h : r.getHeader "origin" = none) :
    corsApp r = routerApp r := by
  unfold corsApp
  rw [h]

theorem corsApp_of_origin_some_not_preflight (r : Request) (o : String)
    (h : r.getHeader "origin" = some o)
    (hnp : ¬ (r.method = "OPTIONS"
      ∧ ((r.getHeader "access-control-request-method").isSome = true))) :
    corsApp r = simpleResponse r (routerApp r) := by
  unfold corsApp
  rw [h]
  exact if_neg hnp

theorem corsApp_of_preflight (r : Request) (o : String)
    (h : r.getHeader "origin" = some o)
    (hpre : r.method = "OPTIONS"
      ∧ ((r.getHeader "access-control-request-method").isSome = true)) :
    corsApp r = preflightResponse r := by
  unfold corsApp
  rw [h]
  exact if_pos hpre

/-! ### Claim theorems -/

/-- C1: every GET request to /api/get-list-items, whatever its headers and
query string, is answered with status 200, Content-Type application/json,
and body exactly the JSON array ["apples","bananas","cherries"]. -/
theorem get_route_responds_ok (r : Request) (hm : r.method = "GET")
    (hp : r.path = "/api/get-list-items") :
    (serve r).status = 200
    ∧ (serve r).getHeader "content-type" = some "application/json"
    ∧ (serve r).body = "[\"apples\",\"bananas\",\"cherries\"]" := by
  obtain ⟨m, p, hs, q⟩ := r
  simp only at hm hp
  subst hm; subst hp
  rw [serve_eq_corsApp_of_ne_head _ (show ¬ ("GET" : String) = "HEAD" by decide)]
  have hR : routerApp (⟨"GET", "/api/get-list-items", hs, q⟩ : Request)
      = jsonResponse getListItems := rfl
  cases ho : findHeader hs "origin" with
  | none =>
    rw [corsApp_of_origin_none (⟨"GET", "/api/get-list-items", hs, q⟩ : Request) ho, hR]
    exact ⟨rfl, rfl, by decide⟩
  | some o =>
    rw [corsApp_of_origin_some_not_preflight
      (⟨"GET", "/api/get-list-items", hs, q⟩ : Request) o ho
      (fun hc => (show ¬ ("GET" : String) = "OPTIONS" by decide) hc.1), hR]
    refine ⟨simpleResponse_status _ _, ?_, ?_⟩
    · exact simpleResponse_getHeader_ne _ _ _ _ (by decide) rfl
    · rw [simpleResponse_body]
      decide

/-- C1 witness: the concrete request `getReq`. -/
theorem get_route_responds_ok_witness :
    (serve getReq).status = 200
    ∧ (serve getReq).getHeader "content-type" = some "application/json"
    ∧ (serve getReq).body = "[\"apples\",\"bananas\",\"cherries\"]" :=
  get_route_responds_ok getReq rfl rfl

/-- C10: a GET request to /api/get-list-items/ is not a 404: the router's
default slash redirect answers with a 307 redirect whose location is the
canonical path /api/get-list-items. -/
theorem trailing_slash_redirect (r : Request) (hm : r.method = "GET")
    (hp : r.path = "/api/get-list-items/") :
    (serve r).status ≠ 404
    ∧ (serve r).status = 307
    ∧ (serve r).getHeader "location" = some "/api/get-list-items" := by
  obtain ⟨m, p, hs, q⟩ := r
  simp only at hm hp
  subst hm; subst hp
  rw [serve_eq_corsApp_of_ne_head _ (show ¬ ("GET" : String) = "HEAD" by decide)]
  have hR : routerApp (⟨"GET", "/api/get-list-items/", hs, q⟩ : Request)
      = redirectResponse "/api/get-list-items" := rfl
  cases ho : findHeader hs "origin" with
  | none =>
    rw [corsApp_of_origin_none (⟨"GET", "/api/get-list-items/", hs, q⟩ : Request) ho, hR]
    exact ⟨by decide, rfl, rfl⟩
  | some o =>
    rw [corsApp_of_origin_some_not_preflight
      (⟨"GET", "/api/get-list-items/", hs, q⟩ : Request) o ho
      (fun hc => (show ¬ ("GET" : String) = "OPTIONS" by decide) hc.1), hR]
    have h307 : (simpleResponse (⟨"GET", "/api/get-list-items/", hs, q⟩ : Request)
        (redirectResponse "/api/get-list-items")).status = 307 :=
      simpleResponse_status _ _
    refine ⟨?_, h307, ?_⟩
    · rw [h307]
      decide
    · exact simpleResponse_getHeader_ne _ _ _ _ (by decide) rfl

/-- C10 witness: the concrete request `slashReq`. -/
theorem trailing_slash_redirect_witness :
    (serve slashReq).status ≠ 404
    ∧ (serve slashReq).status = 307
    ∧ (serve slashReq).getHeader "location" = some "/api/get-list-items" :=
  trailing_slash_redirect slashReq rfl rfl

/-- C8: an OPTIONS request to /api/get-list-items lacking an Origin header,
or lacking an Access-Control-Request-Method header, is not treated as a
CORS preflight: it passes through to routing and is answered 405, the
route being registered for GET (and HEAD) only. -/
theorem options_without_preflight_is_405 (r : Request) (hm : r.method = "OPTIONS")
    (hp : r.path = "/api/get-list-items")
    (hmiss : r.getHeader "origin" = none
      ∨ r.getHeader "access-control-request-method" = none) :
    (serve r).status = 405 := by
  obtain ⟨m, p, hs, q⟩ := r
  simp only at hm hp
  subst hm; subst hp
  unfold Request.getHeader at hmiss
  simp only at hmiss
  rw [serve_eq_corsApp_of_ne_head _ (show ¬ ("OPTIONS" : String) = "HEAD" by decide)]
  have hR : routerApp (⟨"OPTIONS", "/api/get-list-items", hs, q⟩ : Request)
      = methodNotAllowedResponse := rfl
  cases ho : findHeader hs "origin" with
  | none =>
    rw [corsApp_of_origin_none (⟨"OPTIONS", "/api/get-list-items", hs, q⟩ : Request) ho, hR]
    rfl
  | some o =>
    have hacrm : findHeader hs "access-control-request-method" = none := by
      rcases hmiss with h1 | h2
      · rw [ho] at h1; cases h1
      · exact h2
    rw [corsApp_of_origin_some_not_preflight
      (⟨"OPTIONS", "/api/get-list-items", hs, q⟩ : Request) o ho ?_, hR]
    · exact simpleResponse_status _ _
    · intro hc
      have h2 := hc.2
      simp [Request.getHeader, hacrm] at h2

/-- C8 witness: the concrete request `optionsReq`. -/
theorem options_without_preflight_is_405_witness :
    (serve optionsReq).status = 405 :=
  options_without_preflight_is_405 optionsReq rfl rfl (Or.inl rfl)

theorem preflightResponse_getHeader (r : Request) (n : String) :
    (preflightResponse r).getHeader n
      = findHeader (preflightRespHeaders r) n := by
  unfold preflightResponse Response.getHeader
  split <;> rfl

/-- Under this configuration the preflight reply's headers evaluate to:
`Vary`, the method list, the max age, the credentials header, the echoed
requesting origin, then the echoed requested headers. -/
theorem preflightRespHeaders_eq (r : Request) :
    preflightRespHeaders r
      = [("vary", "Origin"),
         ("access-control-allow-methods",
           "DELETE, GET, HEAD, OPTIONS, PATCH, POST, PUT"),
         ("access-control-max-age", "600"),
         ("access-control-allow-credentials", "true"),
         ("access-control-allow-origin", (r.getHeader "origin").getD "")]
        ++ preflightEchoHeaders r := by
  unfold preflightRespHeaders
  rw [if_pos ⟨Or.inl (show allowAllOrigins by decide),
    show preflightExplicitAllowOrigin by decide⟩]
  rfl

theorem preflightRespHeaders_acao (r : Request) :
    findHeader (preflightRespHeaders r) "access-control-allow-origin"
      = some ((r.getHeader "origin").getD "") := by
  rw [preflightRespHeaders_eq]
  exact findHeader_append_of_some _ _ _ _ rfl

theorem preflightRespHeaders_acac (r : Request) :
    findHeader (preflightRespHeaders r) "access-control-allow-credentials"
      = some "true" := by
  rw [preflightRespHeaders_eq]
  exact findHeader_append_of_some _ _ _ _ rfl

theorem preflightRespHeaders_acam (r : Request) :
    findHeader (preflightRespHeaders r) "access-control-allow-methods"
      = some "DELETE, GET, HEAD, OPTIONS, PATCH, POST, PUT" := by
  rw [preflightRespHeaders_eq]
  exact findHeader_append_of_some _ _ _ _ rfl

theorem preflightRespHeaders_acah (r : Request) (h : String)
    (hh : r.getHeader "access-control-request-headers" = some h) :
    findHeader (preflightRespHeaders r) "access-control-allow-headers"
      = some h := by
  rw [preflightRespHeaders_eq]
  have hecho : preflightEchoHeaders r = [("access-control-allow-headers", h)] := by
    simp only [preflightEchoHeaders, hh]
    rw [if_pos (show allowAllHeaders by decide)]
  rw [hecho]
  rfl

/-- Every response to a request carrying an Origin header — preflight or
not, wherever it is routed — includes the allow-origin and the
allow-credentials headers. -/
theorem cors_headers_of_origin (r : Request)
    (ho : (r.getHeader "origin").isSome = true) :
    ((serve r).getHeader "access-control-allow-origin").isSome = true
    ∧ (serve r).getHeader "access-control-allow-credentials" = some "true" := by
  obtain ⟨o, hoe⟩ := Option.isSome_iff_exists.mp ho
  rw [serve_getHeader, serve_getHeader]
  by_cases hpre : r.method = "OPTIONS"
      ∧ ((r.getHeader "access-control-request-method").isSome = true)
  · rw [corsApp_of_preflight r o hoe hpre]
    rw [preflightResponse_getHeader, preflightResponse_getHeader]
    constructor
    · rw [preflightRespHeaders_acao]
      rfl
    · exact preflightRespHeaders_acac r
  · rw [corsApp_of_origin_some_not_preflight r o hoe hpre]
    exact simpleResponse_cors_headers r _ (routerApp_no_cors_headers r).1
      (routerApp_no_cors_headers r).2

theorem processTrace_eq (s : ServerState) (rs : List Request) :
    processTrace s rs = (s, rs.map serve) := by
  induction rs generalizing s with
  | nil => rfl
  | cons r t ih => simp only [processTrace, step, ih, List.map_cons]

/-- C2: the middleware configuration permits any origin, every method and
every request header, with credentials allowed, and it applies uniformly:
whatever the path, any response to a request carrying an Origin header
includes the CORS headers. -/
theorem cors_policy_uniform :
    corsConfig.allowOrigins = ["*"]
    ∧ corsConfig.allowMethods = ["*"]
    ∧ corsConfig.allowHeaders = ["*"]
    ∧ corsConfig.allowCredentials = true
    ∧ resolvedAllowMethods = ALL_METHODS
    ∧ (∀ r : Request, (r.getHeader "origin").isSome = true →
        ((serve r).getHeader "access-control-allow-origin").isSome = true
        ∧ (serve r).getHeader "access-control-allow-credentials" = some "true") := by
  refine ⟨rfl, rfl, rfl, rfl, rfl, ?_⟩
  intro r ho
  exact cors_headers_of_origin r ho

/-- C2 witness: the concrete request `originReq`. -/
theorem cors_policy_uniform_witness :
    ((serve originReq).getHeader "access-control-allow-origin").isSome = true :=
  (cors_policy_uniform.2.2.2.2.2 originReq rfl).1

/-- C4: a preflight OPTIONS request to the route is answered with headers
permitting any origin — credentials being allowed, the requesting origin,
whichever it is, is echoed into Access-Control-Allow-Origin — all methods
(the full expanded method list) and all request headers (the requested
headers are echoed back as allowed); and any actual (non-preflight) request
carrying an Origin header receives a response including
Access-Control-Allow-Origin. -/
theorem cors_preflight_allows_all (r : Request)
    (hp : r.path = "/api/get-list-items")
    (hm : r.method = "OPTIONS")
    (ho : (r.getHeader "origin").isSome = true)
    (hacrm : (r.getHeader "access-control-request-method").isSome = true) :
    ((∀ o, r.getHeader "origin" = some o →
        (serve r).getHeader "access-control-allow-origin" = some o)
    ∧ (serve r).getHeader "access-control-allow-methods"
        = some "DELETE, GET, HEAD, OPTIONS, PATCH, POST, PUT"
    ∧ (∀ h, r.getHeader "access-control-request-headers" = some h →
        (serve r).getHeader "access-control-allow-headers" = some h))
    ∧ (∀ r2 : Request, (r2.getHeader "origin").isSome = true →
        ¬ (r2.method = "OPTIONS"
          ∧ ((r2.getHeader "access-control-request-method").isSome = true)) →
        ((serve r2).getHeader "access-control-allow-origin").isSome = true) := by
  obtain ⟨o, hoe⟩ := Option.isSome_iff_exists.mp ho
  have hcors : corsApp r = preflightResponse r :=
    corsApp_of_preflight r o hoe ⟨hm, hacrm⟩
  constructor
  · refine ⟨?_, ?_, ?_⟩
    · intro o2 hoo
      rw [serve_getHeader, hcors, preflightResponse_getHeader,
        preflightRespHeaders_acao, hoo]
      rfl
    · rw [serve_getHeader, hcors, preflightResponse_getHeader]
      exact preflightRespHeaders_acam r
    · intro h hh
      rw [serve_getHeader, hcors, preflightResponse_getHeader]
      exact preflightRespHeaders_acah r h hh
  · intro r2 ho2 hnp2
    exact (cors_headers_of_origin r2 ho2).1

/-- C4 witness: the concrete request `preflightReq` has its origin echoed. -/
theorem cors_preflight_allows_all_witness :
    (serve preflightReq).getHeader "access-control-allow-origin"
      = some "http://example.com" :=
  ((cors_preflight_allows_all preflightReq rfl rfl rfl rfl).1).1
    "http://example.com" rfl

/-- C7: the handler cannot fail: its body is a single return of a literal,
so the endpoint runner's error branch (a 500 response) is unreachable. -/
theorem handler_cannot_fail :
    getListItemsEndpoint () = Except.ok getListItems
    ∧ runEndpoint getListItemsEndpoint = jsonResponse getListItems
    ∧ ¬ (runEndpoint getListItemsEndpoint).status = 500
    ∧ runEndpoint getListItemsEndpoint ≠ serverErrorResponse := by
  refine ⟨rfl, rfl, by decide, by decide⟩

/-- C3: the endpoint is idempotent and referentially transparent: the
response to a request is identical (in particular byte-identical in body)
whatever requests preceded it and whenever it is made, and processing any
trace leaves the server state unchanged. -/
theorem endpoint_idempotent_no_side_effects (pre1 pre2 : List Request) (r : Request) :
    (processTrace initialState (pre1 ++ [r])).2.getLast?
      = (processTrace initialState (pre2 ++ [r])).2.getLast?
    ∧ ((processTrace initialState (pre1 ++ [r])).2.getLast?).map Response.body
      = ((processTrace initialState (pre2 ++ [r])).2.getLast?).map Response.body
    ∧ (processTrace initialState (pre1 ++ [r])).1 = initialState := by
  rw [processTrace_eq, processTrace_eq]
  have h1 : ((pre1 ++ [r]).map serve).getLast? = some (serve r) := by
    simp [List.map_append]
  have h2 : ((pre2 ++ [r]).map serve).getLast? = some (serve r) := by
    simp [List.map_append]
  exact ⟨by rw [h1, h2], by rw [h1, h2], rfl⟩

/-- C5: the payload is a process-wide constant: the initial state carries
exactly ["apples","bananas","cherries"], every request handling step leaves
the state untouched, and after any trace of requests the payload is still
exactly this sequence. -/
theorem payload_process_constant (s : ServerState) (r : Request) (rs : List Request) :
    initialState.payload = ["apples", "bananas", "cherries"]
    ∧ (step s r).1 = s
    ∧ (processTrace initialState rs).1.payload = ["apples", "bananas", "cherries"] := by
  refine ⟨rfl, rfl, ?_⟩
  rw [processTrace_eq]
  rfl

